import Mathlib

/-!
Verification of the thrifty-builder specification against a shallow embedding
of the source under `src/thriftybuilder`.  Python strings are Lean `String`s,
`os.path` paths are modelled as absolute component lists, the filesystem is a
finite list of entries, and fallible Python code returns `Except PyError`.
All definitions are executable so that concrete runs can be settled by `decide`.
-/

set_option autoImplicit false

namespace ThriftyBuilder

/-! ## String primitives

Kernel-executable replacements for the Python `str` operations the source
uses (`sorted`, `str.split`, `str.strip`, substring membership).  They operate
on `String.data` so concrete evaluation reduces in the kernel. -/

/-- Lexicographic comparison of character lists by code point, the order
Python uses when sorting a list of strings. -/
def listCharLe : List Char → List Char → Bool
  | [], _ => true
  | _ :: _, [] => false
  | c :: cs, d :: ds =>
    if c.toNat < d.toNat then true
    else if d.toNat < c.toNat then false
    else listCharLe cs ds

/-- String order used by Python `sorted` on `str`. -/
def strLeB (s t : String) : Bool := listCharLe s.data t.data

/-- Insert into a list sorted by `strLeB` on a key. -/
def insertSortedBy {α : Type} (key : α → String) (x : α) : List α → List α
  | [] => [x]
  | y :: ys => if strLeB (key x) (key y) then x :: y :: ys else y :: insertSortedBy key x ys

/-- Insertion sort by a string key: the effect of Python `sorted` on the keys. -/
def sortByStr {α : Type} (key : α → String) (l : List α) : List α :=
  l.foldr (insertSortedBy key) []

/-- Split a character list on a separator character, Python `str.split(sep)`. -/
def splitCharsOn (sep : Char) : List Char → List (List Char)
  | [] => [[]]
  | c :: cs =>
    let rest := splitCharsOn sep cs
    if c = sep then [] :: rest
    else
      match rest with
      | [] => [[c]]
      | r :: rs => (c :: r) :: rs

/-- Python `str.split(sep)` on strings. -/
def splitStrOn (sep : Char) (s : String) : List String :=
  (splitCharsOn sep s.data).map String.mk

/-- Whitespace trimming on a character list, Python `str.strip()`. -/
def trimChars (cs : List Char) : List Char :=
  ((cs.dropWhile Char.isWhitespace).reverse.dropWhile Char.isWhitespace).reverse

/-- Python `str.strip()`. -/
def stripStr (s : String) : String := String.mk (trimChars s.data)

/-- Whether `sub` occurs at the head of `hay`. -/
def leadsWith : List Char → List Char → Bool
  | _, [] => true
  | [], _ :: _ => false
  | c :: cs, d :: ds => c = d && leadsWith cs ds

/-- Whether `sub` occurs anywhere inside `hay`: Python `sub in hay` on `str`. -/
def hasSegment (hay sub : List Char) : Bool :=
  leadsWith hay sub ||
    match hay with
    | [] => false
    | _ :: t => hasSegment t sub

/-- Python `sub in s` for strings. -/
def strContainsSub (s sub : String) : Bool := hasSegment s.data sub.data

/-! ## Path and filesystem model

An absolute path is its list of components below the root (`/a/b` is
`["a", "b"]`).  The filesystem is a finite list of entries, each a regular
file (with byte contents modelled as a string) or a directory, carrying the
`st_mode` permission bits. -/

/-- Absolute filesystem path as its component list. -/
abbrev FsPath := List String

/-- Kind of a filesystem entry: regular file with contents, or directory. -/
inductive FsKind : Type
  | file (contents : String)
  | dir
  deriving DecidableEq, Repr

/-- One filesystem entry with its `st_mode` bits. -/
structure FsEntry : Type where
  path : FsPath
  kind : FsKind
  mode : Nat
  deriving DecidableEq, Repr

/-- A finite filesystem. -/
abbrev FileSystem := List FsEntry

/-- Look up the entry at a path. -/
def FileSystem.findEntry (fs : FileSystem) (p : FsPath) : Option FsEntry :=
  fs.find? (fun e => e.path == p)

/-- Python `os.path.exists`. -/
def FileSystem.existsPath (fs : FileSystem) (p : FsPath) : Bool :=
  (fs.findEntry p).isSome

/-- Python `os.path.isdir`. -/
def FileSystem.isDirB (fs : FileSystem) (p : FsPath) : Bool :=
  match fs.findEntry p with
  | some e => e.kind == FsKind.dir
  | none => false

/-- Contents returned by `open(p, "rb").read()` when `p` is a regular file. -/
def FileSystem.readFile (fs : FileSystem) (p : FsPath) : Option String :=
  match fs.findEntry p with
  | some e =>
    match e.kind with
    | FsKind.file contents => some contents
    | FsKind.dir => none
  | none => none

/-- Permission bits of `os.stat(p).st_mode`, `0` when the path is absent
(the caller never reaches that case on existing paths). -/
def FileSystem.statMode (fs : FileSystem) (p : FsPath) : Nat :=
  match fs.findEntry p with
  | some e => e.mode
  | none => 0

/-- Python `os.path.normpath` on an absolute component list: drops `.` and
empty components and resolves `..` against the accumulated prefix. -/
def normComponents (l : List String) : List String :=
  l.foldl
    (fun acc c =>
      if c = "." ∨ c = "" then acc
      else if c = ".." then acc.dropLast
      else acc ++ [c])
    []

/-- Python `os.path.normpath(os.path.join(base, rel))` where `base` is an
absolute path and `rel` a relative path string: split `rel` on `/` and
normalise the concatenation.  (A leading `/` in `rel` would make `join`
discard `base`; the sources in this code base are context-relative.) -/
def normJoin (base : FsPath) (rel : String) : FsPath :=
  if rel.data.head? = some '/' then normComponents (splitStrOn '/' rel)
  else normComponents (base ++ splitStrOn '/' rel)

/-- Longest common prefix stripping for `os.path.relpath`. -/
def stripCommon : List String → List String → (List String × List String)
  | a :: as, b :: bs => if a = b then stripCommon as bs else (a :: as, b :: bs)
  | as, bs => (as, bs)

/-- Python `os.path.relpath(p, base)` on absolute component lists, returned
as the display string (`.` when the paths coincide). -/
def relpathStr (p base : FsPath) : String :=
  let (prest, brest) := stripCommon p base
  let comps := List.replicate brest.length ".." ++ prest
  match comps with
  | [] => "."
  | c :: cs => cs.foldl (fun acc x => acc ++ "/" ++ x) c

/-- Display string of an absolute path, the form Python sorts and prints. -/
def pathStr (p : FsPath) : String :=
  p.foldl (fun acc c => acc ++ "/" ++ c) ""

/-- Files produced by `os.walk(context)`: every regular file strictly below
`context` (`os.walk` does not skip hidden files). -/
def walkFiles (fs : FileSystem) (context : FsPath) : List FsPath :=
  (fs.filter
      (fun e =>
        (match e.kind with | FsKind.file _ => true | FsKind.dir => false) &&
          List.isPrefixOf context e.path && decide (context.length < e.path.length))).map
    (fun e => e.path)

/-- Whether a path component is hidden (starts with a dot): `glob` does not
match such components with `*` or `**`. -/
def isHiddenComponent (c : String) : Bool := c.data.head? = some '.'

/-- Entries matched by Python `glob(f"{d}/**/*", recursive=True)`: every
existing path strictly below `d` all of whose components below `d` are
non-hidden (this includes directories; `glob` skips dot-files at every
level). -/
def globRecursive (fs : FileSystem) (d : FsPath) : List FsPath :=
  (fs.filter
      (fun e =>
        List.isPrefixOf d e.path && decide (d.length < e.path.length) &&
          (e.path.drop d.length).all (fun c => !isHiddenComponent c))).map
    (fun e => e.path)

/-! ## Python error model -/

/-- Errors raised by the embedded Python code. -/
inductive PyError : Type
  | typeError
  | valueError
  | invalidBuildConfiguration
  | assertionFailed
  | fileNotFound
  | recursionLimit
  deriving DecidableEq, Repr

/-! ## Dockerfile commands and `DockerBuildConfiguration`

Embedding of `src/thriftybuilder/build_configurations.py`.  A parsed
Dockerfile instruction (the external `dockerfile` library's `Command`) keeps
its lowercased opcode, its tokenised argument vector and its original source
line. -/

/-- A parsed Dockerfile instruction as returned by `dockerfile.parse_file`. -/
structure Command : Type where
  cmd : String
  value : List String
  original : String
  deriving DecidableEq, Repr

/-- Embedding of `DockerBuildConfiguration`: the fields set by `__init__`. -/
structure DockerBuildConfiguration : Type where
  identifier : String
  dockerfile_location : FsPath
  context : FsPath
  commands : List Command
  deriving DecidableEq, Repr

namespace DockerBuildConfiguration

/-- Embedding of `DockerBuildConfiguration.__init__`.  The constructor stores
the identifier, the Dockerfile location, the context (defaulting to the
directory containing the Dockerfile) and the parse result of the Dockerfile
(the external parser's output is passed in as `parsedCommands`).  The only
checks in the source are `isinstance(image_name, str)` and absoluteness of
the two paths, which the model's types make hold by construction; `__init__`
performs no validation of the identifier's format and never inspects the
commands. -/
def init (image_name : String) (dockerfile_location : FsPath) (context : Option FsPath)
    (parsedCommands : List Command) : DockerBuildConfiguration :=
  { identifier := image_name
    dockerfile_location := dockerfile_location
    context := context.getD dockerfile_location.dropLast
    commands := parsedCommands }

/-- Embedding of the `name` property: `identifier.split(":")[0]`. -/
def name (c : DockerBuildConfiguration) : String :=
  (splitStrOn ':' c.identifier).headD ""

/-- Embedding of the `tag` property: `None` when the identifier has no colon,
otherwise `identifier.split(":")[1]`. -/
def tag (c : DockerBuildConfiguration) : Option String :=
  if c.identifier.data.contains ':' then (splitStrOn ':' c.identifier).getD 1 ""
  else none

/-- Embedding of the `requires` property: the argument vector of the first
`FROM` command, raising `InvalidBuildConfigurationError` when the Dockerfile
has no `FROM` command (this is the first time the absence is detected). -/
def requires (c : DockerBuildConfiguration) : Except PyError (List String) :=
  match c.commands.find? (fun cmd => cmd.cmd == "from") with
  | some cmd => Except.ok cmd.value
  | none => Except.error PyError.invalidBuildConfiguration

/-- Embedding of the `from_image` property: `assert len(self.requires) == 1`
then the single element. -/
def from_image (c : DockerBuildConfiguration) : Except PyError String := do
  let r ← c.requires
  match r with
  | [x] => Except.ok x
  | _ => Except.error PyError.assertionFailed

/-- Embedding of `get_ignored_files`.  The ignore file is looked up at
`os.path.join(os.path.dirname(self.dockerfile_location), ".dockerignore")`
(the Dockerfile's directory, not the context), its lines are stripped, the
context is walked, and each context file is classified by matching its path
relative to the context against the patterns.  The external `ZgitIgnore`
matcher is the parameter `checker` (patterns, relative path ↦ ignored?). -/
def get_ignored_files (checker : List String → String → Bool) (fs : FileSystem)
    (c : DockerBuildConfiguration) : List FsPath :=
  let dockerignorePath := c.dockerfile_location.dropLast ++ [".dockerignore"]
  match fs.readFile dockerignorePath with
  | none => []
  | some contents =>
    let ignoredPatterns := (splitStrOn '\n' contents).map stripStr
    let contextFiles := walkFiles fs c.context
    contextFiles.filter (fun p => checker ignoredPatterns (relpathStr p c.context))

/-- Source operands of every `ADD`/`COPY` command (all arguments except the
last), with the source's `assert len(command.value) >= 2`. -/
def sourcePatterns (c : DockerBuildConfiguration) : Except PyError (List String) :=
  c.commands.foldlM
    (fun acc cmd =>
      if cmd.cmd = "add" ∨ cmd.cmd = "copy" then
        if 2 ≤ cmd.value.length then Except.ok (acc ++ cmd.value.dropLast)
        else Except.error PyError.assertionFailed
      else Except.ok acc)
    []

/-- Set insertion on a path list (Python `set.add`). -/
def insertPath (p : FsPath) (l : List FsPath) : List FsPath :=
  if l.contains p then l else l ++ [p]

/-- Embedding of the `used_files` property.  Each source pattern is resolved
against the context and normalised; a directory source expands via
`glob(f"{path}/**/*", recursive=True)`; candidates that exist and are not
directories are collected; finally the ignored set is removed. -/
def used_files (checker : List String → String → Bool) (fs : FileSystem)
    (c : DockerBuildConfiguration) : Except PyError (List FsPath) := do
  let patterns ← c.sourcePatterns
  let source_files :=
    patterns.foldl
      (fun acc source_path =>
        let full := normJoin c.context source_path
        let candidates := if fs.isDirB full then globRecursive fs full else [full]
        candidates.foldl
          (fun acc2 cand =>
            if fs.existsPath cand && !fs.isDirB cand then insertPath cand acc2 else acc2)
          acc)
      []
  let ignored := c.get_ignored_files checker fs
  Except.ok (source_files.filter (fun p => !ignored.contains p))

end DockerBuildConfiguration

/-! ## Configuration container

Embedding of `src/thriftybuilder/containers.py`.  The container is a Python
`dict` keyed by `identifier` holding the configurations as values; it is
modelled as the list of resident values in insertion order, with the
defining Python 3.7 `dict` semantics of `d[k] = v`: assigning to a present
key replaces the value in place, assigning to an absent key appends.  The
container is generic over the configuration type, which only needs an
`identifier`; `ident` plays that role. -/

namespace BuildConfigurationContainer

/-- Embedding of `BuildConfigurationContainer.get`:
`self._build_configurations.get(identifier, default)` with `default = None`. -/
def get {α : Type} (ident : α → String) (l : List α) (identifier : String) : Option α :=
  l.find? (fun c => ident c == identifier)

/-- Embedding of `BuildConfigurationContainer.add`:
`self._build_configurations[build_configuration.identifier] = build_configuration`.
A present key keeps its position and has its value replaced; an absent key is
appended. -/
def add {α : Type} (ident : α → String) (l : List α) (c : α) : List α :=
  if l.any (fun d => ident d == ident c) then
    l.map (fun d => if ident d == ident c then c else d)
  else l ++ [c]

/-- Embedding of `BuildConfigurationContainer.add_all`. -/
def add_all {α : Type} (ident : α → String) (l : List α) (cs : List α) : List α :=
  cs.foldl (add ident) l

/-- Embedding of `__iter__`: the values in current insertion order. -/
def iterate {α : Type} (l : List α) : List α := l

end BuildConfigurationContainer

/-! ## Hasher and checksum calculator

Embedding of `src/thriftybuilder/hashers.py` and
`src/thriftybuilder/checksums.py`.  `Md5Hasher.update` accepts `str` (encoded
as UTF-8) or `bytes` and feeds them to `hashlib.md5`, which raises
`TypeError` on any other object; the accumulated digest input is modelled as
the concatenation of the accepted updates and the digest function itself
(`hashlib.md5(...).hexdigest()`, or any generator passed for
`hasher_generator`) is the parameter `hashFn`. -/

/-- An argument passed to `Hasher.update`: a Python `str`, `bytes`, or some
other object (the parsed `Command`, which `hashlib` rejects). -/
inductive HashArg : Type
  | str (s : String)
  | bytes (b : String)
  | commandObj (c : Command)

/-- Embedding of `Md5Hasher.update` acting on the accumulated digest input:
strings and bytes are accumulated, any other object raises `TypeError`. -/
def md5Update (acc : String) : HashArg → Except PyError String
  | HashArg.str s => Except.ok (acc ++ s)
  | HashArg.bytes b => Except.ok (acc ++ b)
  | HashArg.commandObj _ => Except.error PyError.typeError

namespace DockerChecksumCalculator

open DockerBuildConfiguration

/-- Embedding of `ChecksumCalculator.calculate_used_files_checksum`: for each
path in `sorted(used_files)`, hash the file's bytes when it is not a
directory, then its path relative to the context, then the decimal form of
`st_mode & 0o777` (`m % 512` equals the low nine bits). -/
def calculate_used_files_checksum (hashFn : String → String)
    (checker : List String → String → Bool) (fs : FileSystem)
    (cfg : DockerBuildConfiguration) : Except PyError String := do
  let files ← cfg.used_files checker fs
  let sortedFiles := sortByStr pathStr files
  let acc ←
    sortedFiles.foldlM
      (fun acc p => do
        let acc ←
          if !fs.isDirB p then
            match fs.readFile p with
            | some contents => md5Update acc (HashArg.bytes contents)
            | none => Except.error PyError.fileNotFound
          else Except.ok acc
        let acc ← md5Update acc (HashArg.str (relpathStr p cfg.context))
        let acc ← md5Update acc (HashArg.str (toString (fs.statMode p % 512)))
        pure acc)
      ""
  Except.ok (hashFn acc)

/-- Embedding of `DockerChecksumCalculator.calculate_configuration_checksum`:
the hasher is updated with each parsed `Command` object itself
(`hasher.update(command)`), not with its original source line. -/
def calculate_configuration_checksum (hashFn : String → String)
    (cfg : DockerBuildConfiguration) : Except PyError String := do
  let acc ← cfg.commands.foldlM (fun acc cmd => md5Update acc (HashArg.commandObj cmd)) ""
  Except.ok (hashFn acc)

/-- Embedding of `DockerChecksumCalculator.calculate_checksum` with the
recursion through managed parents made explicit by `fuel` (Python's limit is
the interpreter's recursion depth; running out raises `RecursionError`).
Evaluation order follows the source: the superclass checksum first
(used-files checksum, then dependency checksum via `from_image` and the
managed container), then the configuration checksum, combined as
`hash(configuration_checksum ++ hash(used_files_checksum ++ dependency_checksum))`. -/
def calculate_checksum (hashFn : String → String)
    (checker : List String → String → Bool) (fs : FileSystem)
    (managed : List DockerBuildConfiguration) :
    Nat → DockerBuildConfiguration → Except PyError String
  | 0, _ => Except.error PyError.recursionLimit
  | fuel + 1, cfg => do
    let usedChecksum ← calculate_used_files_checksum hashFn checker fs cfg
    let dependencyChecksum ←
      (do
        let fi ← cfg.from_image
        match BuildConfigurationContainer.get DockerBuildConfiguration.identifier managed fi with
        | some parent => calculate_checksum hashFn checker fs managed fuel parent
        | none => Except.ok "")
    let generalChecksum := hashFn (usedChecksum ++ dependencyChecksum)
    let configurationChecksum ← calculate_configuration_checksum hashFn cfg
    Except.ok (hashFn (configurationChecksum ++ generalChecksum))

end DockerChecksumCalculator

/-! ## Claim-side fingerprint for C1

Claim C1 words the fingerprint as the hash of the concatenation of three
sub-hashes: instruction hash (over original source lines, in file order),
context hash (over `sorted(used_files)`), and parent hash (recursive
fingerprint of a managed parent, else the empty string).  This definition
follows the claim's words, to be compared against the source embedding. -/

namespace ClaimFingerprint

open DockerBuildConfiguration

/-- Instruction hash as claim C1 words it: hash over the original source
line of each instruction in file order. -/
def instructionHash (hashFn : String → String) (cfg : DockerBuildConfiguration) : String :=
  hashFn (cfg.commands.foldl (fun acc cmd => acc ++ cmd.original) "")

/-- Context hash as claim C1 words it: over `sorted(used_files)`, the file
bytes (for non-directories), the context-relative path, and the decimal
permission bits. -/
def contextHash (hashFn : String → String) (checker : List String → String → Bool)
    (fs : FileSystem) (cfg : DockerBuildConfiguration) : Except PyError String := do
  let files ← cfg.used_files checker fs
  let sortedFiles := sortByStr pathStr files
  let acc :=
    sortedFiles.foldl
      (fun acc p =>
        let acc := if !fs.isDirB p then acc ++ ((fs.readFile p).getD "") else acc
        acc ++ relpathStr p cfg.context ++ toString (fs.statMode p % 512))
      ""
  Except.ok (hashFn acc)

/-- The fingerprint as claim C1 states it: the hash of the concatenation of
the three sub-hashes in the fixed order instruction, context, parent. -/
def fingerprint (hashFn : String → String) (checker : List String → String → Bool)
    (fs : FileSystem) (managed : List DockerBuildConfiguration) :
    Nat → DockerBuildConfiguration → Except PyError String
  | 0, _ => Except.error PyError.recursionLimit
  | fuel + 1, cfg => do
    let ctx ← contextHash hashFn checker fs cfg
    let parentHash ←
      (do
        let fi ← cfg.from_image
        match BuildConfigurationContainer.get DockerBuildConfiguration.identifier managed fi with
        | some parent => fingerprint hashFn checker fs managed fuel parent
        | none => Except.ok "")
    Except.ok (hashFn (instructionHash hashFn cfg ++ ctx ++ parentHash))

end ClaimFingerprint

/-! ## Decidable equality for `Except`

Hand-written so that concrete evaluations reduce in the kernel. -/

/-- Decidable equality on `Except`, defined without tactics in the data part
so that `decide` can evaluate it. -/
def exceptDecEq {α β : Type} [DecidableEq α] [DecidableEq β] :
    (a b : Except α β) → Decidable (a = b)
  | Except.ok x, Except.ok y =>
    match decEq x y with
    | isTrue h => isTrue (by rw [h])
    | isFalse h => isFalse (fun hc => h (Except.ok.inj hc))
  | Except.ok _, Except.error _ => isFalse (fun hc => Except.noConfusion hc)
  | Except.error _, Except.ok _ => isFalse (fun hc => Except.noConfusion hc)
  | Except.error x, Except.error y =>
    match decEq x y with
    | isTrue h => isTrue (by rw [h])
    | isFalse h => isFalse (fun hc => h (Except.error.inj hc))

instance {α β : Type} [DecidableEq α] [DecidableEq β] : DecidableEq (Except α β) :=
  exceptDecEq

/-! ## Checksum storage

Embedding of `src/thriftybuilder/storage.py`.  A checksum store maps
configuration identifiers to checksum strings; a Python `dict` with string
keys is modelled as an association list in insertion order with the
`d[k] = v` semantics (replace in place, or append). -/

/-- A Python `dict` from identifiers to checksums. -/
abbrev StrDict := List (String × String)

/-- Python `d.get(k, None)`. -/
def dictGet (d : StrDict) (k : String) : Option String :=
  (d.find? (fun e => e.1 == k)).map (fun e => e.2)

/-- Python `d[k] = v`: replace the value of a present key in place,
append an absent key. -/
def dictSet (d : StrDict) (k v : String) : StrDict :=
  if d.any (fun e => e.1 == k) then d.map (fun e => if e.1 == k then (k, v) else e)
  else d ++ [(k, v)]

/-- Embedding of `ChecksumStorage.set_all_checksums`: one `set_checksum` per
mapping entry. -/
def dictSetAll (d : StrDict) (kvs : StrDict) : StrDict :=
  kvs.foldl (fun acc e => dictSet acc e.1 e.2) d

/-! ### `MemoryChecksumStorage` with explicit references

For the frame claim about `get_all_checksums` the aliasing structure
matters, so the in-memory store is modelled with an explicit heap of `dict`
cells: `self._data` is a reference into the heap, and `copy(self._data)`
allocates a fresh cell. -/

/-- Heap of Python `dict` objects; an address is an index into `cells`. -/
structure DictHeap : Type where
  cells : List StrDict
  deriving DecidableEq, Repr

/-- Allocate a fresh `dict` with the given contents. -/
def DictHeap.alloc (h : DictHeap) (v : StrDict) : DictHeap × Nat :=
  (⟨h.cells ++ [v]⟩, h.cells.length)

/-- Contents of the `dict` at an address. -/
def DictHeap.readCell (h : DictHeap) (a : Nat) : StrDict :=
  h.cells.getD a []

/-- Replacement of the list element at an index. -/
def setListAt {α : Type} : List α → Nat → α → List α
  | [], _, _ => []
  | _ :: xs, 0, v => v :: xs
  | x :: xs, n + 1, v => x :: setListAt xs n v

/-- Overwrite the `dict` at an address; models any in-place mutation of that
`dict` object (item assignment, deletion, `clear`, ...). -/
def DictHeap.writeCell (h : DictHeap) (a : Nat) (v : StrDict) : DictHeap :=
  ⟨setListAt h.cells a v⟩

/-- Embedding of `MemoryChecksumStorage`: the object holds the reference
`self._data`. -/
structure MemoryChecksumStorage : Type where
  dataAddr : Nat
  deriving DecidableEq, Repr

namespace MemoryChecksumStorage

/-- Embedding of `MemoryChecksumStorage.__init__` (without seed mappings):
`self._data = {}`. -/
def init (h : DictHeap) : DictHeap × MemoryChecksumStorage :=
  let (h2, a) := h.alloc []
  (h2, ⟨a⟩)

/-- Embedding of `get_checksum`: `self._data.get(configuration_id, None)`. -/
def get_checksum (h : DictHeap) (st : MemoryChecksumStorage) (id1 : String) : Option String :=
  dictGet (h.readCell st.dataAddr) id1

/-- Embedding of `set_checksum`: `self._data[configuration_id] = checksum`. -/
def set_checksum (h : DictHeap) (st : MemoryChecksumStorage) (id1 cs : String) : DictHeap :=
  h.writeCell st.dataAddr (dictSet (h.readCell st.dataAddr) id1 cs)

/-- Embedding of `get_all_checksums`: `return copy(self._data)` — a freshly
allocated `dict` with the current contents; returns the new heap and the
address of the copy. -/
def get_all_checksums (h : DictHeap) (st : MemoryChecksumStorage) : DictHeap × Nat :=
  h.alloc (h.readCell st.dataAddr)

/-- A sequence of `set_checksum` operations. -/
def applySets (h : DictHeap) (st : MemoryChecksumStorage) : List (String × String) → DictHeap
  | [] => h
  | op :: ops => applySets (set_checksum h st op.1 op.2) st ops

end MemoryChecksumStorage

/-! ## Uploader

Embedding of `src/thriftybuilder/uploader.py` together with the
`DockerRegistry` class of `src/thriftybuilder/configuration.py` that it
imports.  The Docker client calls (`tag`, `push`) are external; the decoded
push event stream arrives as the list of parsed JSON event objects, each
modelled by its optional `error` field. -/

/-- Errors raised by `DockerUploader._upload`: the stream-decoding errors of
lines 115-119, the `NamespaceUnknown` of line 93, the asserts of lines
89-91, and the `AttributeError` raised by the attribute read at line 86. -/
inductive UploadErr : Type
  | imageNotFound (name : String) (tag : Option String)
  | uploadError (message : String)
  | namespaceUnknown
  | attributeError
  | assertionFailed
  deriving DecidableEq, Repr

/-- Embedding of `configuration.py`'s `DockerRegistry` (the class
`uploader.py` imports): `__init__` stores a URL and optional credentials,
and no other attribute is ever assigned to it. -/
structure DockerRegistry : Type where
  url : String
  username : Option String
  password : Option String
  deriving DecidableEq, Repr

/-- Embedding of `DockerUploader.DEFAULT_DOCKER_REGISTRY =
DockerRegistry("docker.io")`, the uploader's constructor default. -/
def DEFAULT_DOCKER_REGISTRY : DockerRegistry := ⟨"docker.io", none, none⟩

/-- The attribute lookup `self.docker_registry.namespace` performed at
`uploader.py` line 86.  `configuration.py`'s `DockerRegistry` defines only
`url`, `username` and `password`, and nothing in the code base assigns a
`namespace` attribute, so the lookup raises `AttributeError` for every
registry this program can construct. -/
def DockerRegistry.namespaceAttr (_ : DockerRegistry) : Except UploadErr String :=
  Except.error UploadErr.attributeError

/-- Error classification of a push event carrying an `error` field
(`uploader.py` lines 115-119): `ImageNotFoundError` when the message
contains `"image does not exist"`, `UploadError` otherwise. -/
def classifyPushError (cfg : DockerBuildConfiguration) (err : String) : UploadErr :=
  if strContainsSub err "image does not exist" then
    UploadErr.imageNotFound cfg.name cfg.tag
  else UploadErr.uploadError err

/-- Processing of the decoded push event stream (`uploader.py` lines
109-119): the first event with an `error` field raises; a stream without
errors completes. -/
def processPushEvents (cfg : DockerBuildConfiguration) :
    List (Option String) → Except UploadErr Unit
  | [] => Except.ok ()
  | none :: rest => processPushEvents cfg rest
  | some err :: _ => Except.error (classifyPushError cfg err)

/-- Embedding of `DockerUploader._upload`: the `namespace` attribute read of
line 86 — which raises `AttributeError` — followed by the event stream
decoding that a push would produce.  The `if namespace is None` fallback of
lines 88-95 operates on the value of the read that raised and is dead code,
and the tag and push of lines 98-108 are external client calls made before
the decoding. -/
def dockerUpload (registry : DockerRegistry) (cfg : DockerBuildConfiguration)
    (pushEvents : List (Option String)) : Except UploadErr Unit := do
  let _ ← registry.namespaceAttr
  processPushEvents cfg pushEvents

/-- Embedding of `BuildArtifactUploader.upload`: run `_upload`, then compute
the current checksum and record it with `set_checksum`.  The checksum
calculator is the object's constructor parameter `calc`; the checksum store
is threaded as state. -/
def upload (calculator : DockerBuildConfiguration → String) (registry : DockerRegistry)
    (cfg : DockerBuildConfiguration) (pushEvents : List (Option String))
    (checksum_storage : StrDict) : Except UploadErr Unit × StrDict :=
  match dockerUpload registry cfg pushEvents with
  | Except.error e => (Except.error e, checksum_storage)
  | Except.ok _ => (Except.ok (), dictSet checksum_storage cfg.identifier (calculator cfg))

/-- First `error` field in a push event stream. -/
def firstPushError (events : List (Option String)) : Option String :=
  events.findSome? (fun e => e)

/-! ## Build planner

Embedding of `src/thriftybuilder/builders.py`.  `Builder` is generic over
the configuration type, the backend and the checksum calculator (all
constructor parameters), so the embedding takes the calculator
`calculator : BuildConfiguration → String` and the backend
`backend : BuildConfiguration → String` as parameters; the abstract
`BuildConfiguration` interface exposes `identifier` and `requires`. -/

/-- A build configuration as the generic `Builder` sees it: an identifier
and the identifiers of its required (parent) configurations. -/
structure BuildConfiguration : Type where
  identifier : String
  requires : List String
  deriving DecidableEq, Repr

/-- Errors raised by `Builder.build` / `Builder.build_all`:
`UnmanagedBuildError`, `CircularDependencyBuildError`, a failing Python
`assert`, and exhaustion of the modelled recursion limit. -/
inductive BuildError : Type
  | unmanagedBuild
  | circularDependencyBuild
  | assertionFailed
  | recursionLimit
  deriving DecidableEq, Repr

/-- Modelled from the spec: `DoubleSourceChecksumStorage`, imported by
`builders.py` from `thriftybuilder.storage`, is not present under `src/`.
Spec section 4.7: "The layered store is two stores queried in order
(in-memory overlay, then persistent).  Writes during a planner invocation go
only to the overlay."  A value is either the bottom persistent store or an
in-memory overlay on top of another layered store. -/
inductive LayeredChecksumStorage : Type
  | base (store : StrDict)
  | layer (overlay : StrDict) (rest : LayeredChecksumStorage)
  deriving DecidableEq, Repr

/-- Modelled from the spec: layered read — the overlay first, then the
stores below it. -/
def lcsGet : LayeredChecksumStorage → String → Option String
  | LayeredChecksumStorage.base s, k => dictGet s k
  | LayeredChecksumStorage.layer ov rest, k =>
    match dictGet ov k with
    | some v => some v
    | none => lcsGet rest k

/-- Modelled from the spec: layered write — `set_all_checksums` during a
planner invocation writes only to the topmost overlay. -/
def lcsSetAll : LayeredChecksumStorage → StrDict → LayeredChecksumStorage
  | LayeredChecksumStorage.base s, kvs => LayeredChecksumStorage.base (dictSetAll s kvs)
  | LayeredChecksumStorage.layer ov rest, kvs =>
    LayeredChecksumStorage.layer (dictSetAll ov kvs) rest

/-- Ghost record of one `_already_up_to_date` call: the identifier decided
on, the stored checksum the code actually read (from
`self.checksum_retriever`, since no call site passes `_checksum_retriever`),
and the checksum a read through the current layered store would have
returned. -/
structure UpToDateDecision : Type where
  identifier : String
  used : Option String
  layered : Option String
  deriving DecidableEq, Repr

/-- Build results: the ordered mapping from built configurations to backend
results. -/
abbrev BuildResults := List (BuildConfiguration × String)

/-- Result of a planner run: the returned mapping (or the raised error), the
sequence of `BuildBackend._build` invocations, and the ghost record of
up-to-date decisions. -/
structure BuildOutcome : Type where
  result : Except BuildError BuildResults
  log : List BuildConfiguration
  decisions : List UpToDateDecision
  deriving DecidableEq, Repr

/-- Embedding of `Builder._already_up_to_date` with `_checksum_retriever`
left at its default: the stored checksum comes from `retriever`
(`self.checksum_retriever`); absent means not up to date, otherwise compare
with the calculator's current checksum. -/
def already_up_to_date (calculator : BuildConfiguration → String) (retriever : StrDict)
    (cfg : BuildConfiguration) : Bool :=
  match dictGet retriever cfg.identifier with
  | none => false
  | some existing => existing == calculator cfg

/-- Python `set.add` on a list-modelled set of configurations. -/
def insertBC (c : BuildConfiguration) (l : List BuildConfiguration) : List BuildConfiguration :=
  if l.contains c then l else l ++ [c]

/-- Python `OrderedDict.update`/`dict.update` keyed by configuration:
present keys are replaced in place, absent keys appended in order. -/
def resultsUpdate (a b : BuildResults) : BuildResults :=
  b.foldl
    (fun acc e =>
      if acc.any (fun r => r.1 == e.1) then
        acc.map (fun r => if r.1 == e.1 then e else r)
      else acc ++ [e])
    a

/-- The dependency loop of `Builder.build` (lines 137-161): for each
required identifier, look it up in the manager; when it is managed, allowed
and not already up to date, detect a circular dependency against the build
stack or recurse through `step`, then merge the dependency's results (with
the source's disjointness `assert`) and write the checksums of everything
built so far into the layered store.  `step` performs the recursive
`self.build(...)` call. -/
def buildRequiresLoop (calculator : BuildConfiguration → String)
    (managed : List BuildConfiguration) (retriever : StrDict)
    (allowed building : List BuildConfiguration)
    (step : BuildConfiguration → List BuildConfiguration → LayeredChecksumStorage →
      List BuildConfiguration → List UpToDateDecision → BuildOutcome) :
    List String → BuildResults → LayeredChecksumStorage → List BuildConfiguration →
    List UpToDateDecision →
    Except BuildError (BuildResults × LayeredChecksumStorage) × List BuildConfiguration ×
      List UpToDateDecision
  | [], results, storage, log, decis => (Except.ok (results, storage), log, decis)
  | rid :: rest, results, storage, log, decis =>
    match BuildConfigurationContainer.get BuildConfiguration.identifier managed rid with
    | none => buildRequiresLoop calculator managed retriever allowed building step rest
        results storage log decis
    | some rc =>
      if allowed.contains rc then
        let decis := decis ++
          [⟨rc.identifier, dictGet retriever rc.identifier, lcsGet storage rc.identifier⟩]
        if already_up_to_date calculator retriever rc then
          buildRequiresLoop calculator managed retriever allowed building step rest
            results storage log decis
        else
          let left_allowed := allowed.filter (fun x => !results.any (fun r => r.1 == x))
          if building.contains rc then
            (Except.error BuildError.circularDependencyBuild, log, decis)
          else
            let o := step rc left_allowed storage log decis
            match o.result with
            | Except.error e => (Except.error e, o.log, o.decisions)
            | Except.ok parentResults =>
              if results.any (fun r => parentResults.any (fun pr => pr.1 == r.1)) then
                (Except.error BuildError.assertionFailed, o.log, o.decisions)
              else
                let results := resultsUpdate results parentResults
                let checksums := results.map (fun r => (r.1.identifier, calculator r.1))
                let storage := lcsSetAll storage checksums
                buildRequiresLoop calculator managed retriever allowed building step rest
                  results storage o.log o.decisions
      else
        buildRequiresLoop calculator managed retriever allowed building step rest
          results storage log decis

/-- Embedding of `Builder.build`.  Arguments mirror the source: the
configuration, the optional `allowed_builds`, the internal `_building` stack
and the internal `_checksum_storage`; `log` and `decis` are the ghost
accumulators.  Recursion depth is bounded by `fuel` (Python's interpreter
recursion limit). -/
def build (calculator backend : BuildConfiguration → String)
    (managed : List BuildConfiguration) (retriever : StrDict) :
    Nat → BuildConfiguration → Option (List BuildConfiguration) → List BuildConfiguration →
    Option LayeredChecksumStorage → List BuildConfiguration → List UpToDateDecision →
    BuildOutcome
  | 0, _, _, _, _, log, decis => ⟨Except.error BuildError.recursionLimit, log, decis⟩
  | fuel + 1, cfg, allowedArg, building, storageArg, log, decis =>
    if !managed.contains cfg then ⟨Except.error BuildError.unmanagedBuild, log, decis⟩
    else
      let storage := LayeredChecksumStorage.layer []
        (storageArg.getD (LayeredChecksumStorage.base retriever))
      let allowed := insertBC cfg (allowedArg.getD managed)
      if !allowed.all (fun x => managed.contains x) then
        ⟨Except.error BuildError.unmanagedBuild, log, decis⟩
      else
        let decis := decis ++
          [⟨cfg.identifier, dictGet retriever cfg.identifier, lcsGet storage cfg.identifier⟩]
        if already_up_to_date calculator retriever cfg then ⟨Except.ok [], log, decis⟩
        else
          match
            buildRequiresLoop calculator managed retriever allowed building
              (fun rc la st lg ds =>
                build calculator backend managed retriever fuel rc (some la)
                  (rc :: building) (some st) lg ds)
              cfg.requires [] storage log decis with
          | (Except.error e, log2, decis2) => ⟨Except.error e, log2, decis2⟩
          | (Except.ok (results, _), log2, decis2) =>
            let log3 := log2 ++ [cfg]
            if results.any (fun r => r.1 == cfg) then
              ⟨Except.error BuildError.assertionFailed, log3, decis2⟩
            else
              let results := results ++ [(cfg, backend cfg)]
              if !results.all (fun r => allowed.contains r.1) then
                ⟨Except.error BuildError.assertionFailed, log3, decis2⟩
              else ⟨Except.ok results, log3, decis2⟩

/-- The `while` loop of `Builder.build_all` (lines 183-195): pop a
configuration still to build (the embedding pops the head of the list
standing for the Python set), assert it was not already built, build it with
the remaining ones as `allowed_builds` and the shared layered store, merge
the results, write the checksums of the just-built configurations to the
layered store, and drop everything built from the work list. -/
def build_allGo (calculator backend : BuildConfiguration → String)
    (managed : List BuildConfiguration) (retriever : StrDict) :
    Nat → List BuildConfiguration → LayeredChecksumStorage → BuildResults →
    List BuildConfiguration → List UpToDateDecision → BuildOutcome
  | _, [], _, allResults, log, decis => ⟨Except.ok allResults, log, decis⟩
  | 0, _ :: _, _, _, log, decis => ⟨Except.error BuildError.recursionLimit, log, decis⟩
  | fuel + 1, c :: rest, storage, allResults, log, decis =>
    if allResults.any (fun r => r.1 == c) then
      ⟨Except.error BuildError.assertionFailed, log, decis⟩
    else
      let o := build calculator backend managed retriever (fuel + 1) c (some rest) []
        (some storage) log decis
      match o.result with
      | Except.error e => ⟨Except.error e, o.log, o.decisions⟩
      | Except.ok results =>
        let allResults := resultsUpdate allResults results
        let checksums := results.map (fun r => (r.1.identifier, calculator r.1))
        let storage := lcsSetAll storage checksums
        let rest := rest.filter (fun x => !results.any (fun r => r.1 == x))
        build_allGo calculator backend managed retriever fuel rest storage allResults o.log
          o.decisions

/-- Embedding of `Builder.build_all`: a fresh layered store over the
persistent retriever, then the work loop over all managed configurations. -/
def build_all (calculator backend : BuildConfiguration → String)
    (managed : List BuildConfiguration) (retriever : StrDict) (fuel : Nat) : BuildOutcome :=
  build_allGo calculator backend managed retriever fuel managed
    (LayeredChecksumStorage.layer [] (LayeredChecksumStorage.base retriever)) [] [] []

/-! ## Claim-side definitions used for refutations -/

/-- The ignore computation as claim C7 words it: the ignore file is read
from the context root, not from the Dockerfile's directory; the rest is as
in the source. -/
def get_ignored_files_claim (checker : List String → String → Bool) (fs : FileSystem)
    (c : DockerBuildConfiguration) : List FsPath :=
  let dockerignorePath := c.context ++ [".dockerignore"]
  match fs.readFile dockerignorePath with
  | none => []
  | some contents =>
    let ignoredPatterns := (splitStrOn '\n' contents).map stripStr
    let contextFiles := walkFiles fs c.context
    contextFiles.filter (fun p => checker ignoredPatterns (relpathStr p c.context))

/-- The directory expansion as claim C8 words it: the recursive set of all
regular-file descendants of the directory, hidden dot-files included. -/
def regularFileDescendants (fs : FileSystem) (d : FsPath) : List FsPath :=
  (fs.filter
      (fun e =>
        (match e.kind with | FsKind.file _ => true | FsKind.dir => false) &&
          List.isPrefixOf d e.path && decide (d.length < e.path.length))).map
    (fun e => e.path)

/-! ## Concrete fixtures for counterexamples and witnesses -/

/-- Identity digest function: a concrete instance of the pluggable
`hasher_generator`. -/
def idHash (s : String) : String := s

/-- Ignore checker that ignores nothing. -/
def chkNone (_ : List String) (_ : String) : Bool := false

/-- Ignore checker matching a relative path exactly against the patterns. -/
def exactChk (pats : List String) (rel : String) : Bool := pats.contains rel

/-- Concrete checksum calculator instance for planner runs. -/
def calcH (cfg : BuildConfiguration) : String := "h" ++ cfg.identifier

/-- Concrete constant checksum calculator instance. -/
def calc0 (_ : BuildConfiguration) : String := "h0"

/-- Concrete build backend instance. -/
def backendId (cfg : BuildConfiguration) : String := cfg.identifier

/-- Configuration requiring `b` and `c`, for the missed-layered-read run. -/
def aC2 : BuildConfiguration := ⟨"a", ["b", "c"]⟩

/-- Configuration requiring `c`. -/
def bC2 : BuildConfiguration := ⟨"b", ["c"]⟩

/-- Leaf configuration. -/
def cC2 : BuildConfiguration := ⟨"c", []⟩

/-- Single managed configuration with an external parent. -/
def cSingle : BuildConfiguration := ⟨"c0:1", ["alpine"]⟩

/-- Cycle member referring to `y:1`. -/
def xCyc : BuildConfiguration := ⟨"x:1", ["y:1"]⟩

/-- Cycle member referring to `x:1`. -/
def yCyc : BuildConfiguration := ⟨"y:1", ["x:1"]⟩

/-- Minimal Docker configuration: a Dockerfile consisting of one `FROM`
line, an unmanaged parent and an empty context. -/
def cfgX : DockerBuildConfiguration :=
  DockerBuildConfiguration.init "a:1" ["ctx", "Dockerfile"] none
    [⟨"from", ["alpine"], "FROM alpine"⟩]

/-- Filesystem for the ignore-file-location run: the ignore file sits at the
context root, which differs from the Dockerfile's directory. -/
def fs7 : FileSystem :=
  [⟨["ctx"], FsKind.dir, 493⟩,
   ⟨["ctx", ".dockerignore"], FsKind.file "f", 420⟩,
   ⟨["ctx", "f"], FsKind.file "x", 420⟩,
   ⟨["df"], FsKind.dir, 493⟩,
   ⟨["df", "Dockerfile"], FsKind.file "FROM alpine", 420⟩]

/-- Configuration whose context is not the Dockerfile's directory. -/
def cfg7 : DockerBuildConfiguration :=
  DockerBuildConfiguration.init "i:1" ["df", "Dockerfile"] (some ["ctx"])
    [⟨"from", ["alpine"], "FROM alpine"⟩]

/-- Filesystem for the directory-expansion run: the added directory holds a
hidden file and a visible file. -/
def fs8 : FileSystem :=
  [⟨["ctx"], FsKind.dir, 493⟩,
   ⟨["ctx", "Dockerfile"], FsKind.file "FROM alpine\nADD d dest", 420⟩,
   ⟨["ctx", "d"], FsKind.dir, 493⟩,
   ⟨["ctx", "d", ".hidden"], FsKind.file "secret", 420⟩,
   ⟨["ctx", "d", "vis"], FsKind.file "visible", 420⟩]

/-- Configuration with an `ADD` whose source is the directory `d`. -/
def cfg8 : DockerBuildConfiguration :=
  DockerBuildConfiguration.init "i:1" ["ctx", "Dockerfile"] none
    [⟨"from", ["alpine"], "FROM alpine"⟩, ⟨"add", ["d", "dest"], "ADD d dest"⟩]

/-- First resident of the container run. -/
def da : DockerBuildConfiguration := ⟨"a", ["p1"], ["p1"], []⟩

/-- Second resident of the container run. -/
def db : DockerBuildConfiguration := ⟨"b", ["p2"], ["p2"], []⟩

/-- Replacement value for the identifier `a`. -/
def da2 : DockerBuildConfiguration := ⟨"a", ["p3"], ["p3"], []⟩

/-- Configuration published in the upload runs. -/
def cfg5 : DockerBuildConfiguration := ⟨"img:1", ["d", "Dockerfile"], ["d"], []⟩

/-! ## C2 — up-to-date decisions and the layered store -/

/-- Claim C2: during a `build()`/`build_all()` invocation every up-to-date
decision is supposed to read the stored fingerprint through the layered
store (overlay first, persistent store as fallback).  The source instead
calls `_already_up_to_date` without `_checksum_retriever` at both call sites
(`builders.py` lines 131 and 142), so the decision reads
`self.checksum_retriever` alone.  Running `build` on `a` (requiring `b` and
`c`, where `b` also requires `c`) over an empty persistent store makes this
observable: after `c` and `b` are built, the layered store holds `c`'s fresh
checksum (ghost field `layered = some "hc"`), yet the decision for `c` reads
`none` from the persistent store (`used = none`), so `c` is rebuilt — the
backend log shows `c` twice — and the source's own disjointness assert at
line 156 then fails. -/
theorem C2_up_to_date_reads_persistent_store_only :
    (build calcH backendId [aC2, bC2, cC2] [] 9 aC2 none [] none [] []).result =
        Except.error BuildError.assertionFailed ∧
      (build calcH backendId [aC2, bC2, cC2] [] 9 aC2 none [] none [] []).log =
        [cC2, bC2, cC2] ∧
      ⟨"c", none, some "hc"⟩ ∈
        (build calcH backendId [aC2, bC2, cC2] [] 9 aC2 none [] none [] []).decisions := by
  decide

/-! ## C3 — repeated `build_all` -/

/-- Claim C3 (counterexample): `build_all()` never writes the persistent
store — all checksum writes go to the invocation-local layered overlay,
which is discarded on return — so a second `build_all()` immediately after a
first one runs from exactly the same persistent state and is the same
computation.  With one managed configuration and an empty store, that
computation performs one backend build and returns a non-empty map, so the
second run does not return an empty map and does invoke `_build`,
contradicting the claim. -/
theorem C3_second_build_all_counterexample :
    (build_all calcH backendId [cSingle] [] 5).result =
        Except.ok [(cSingle, "c0:1")] ∧
      (build_all calcH backendId [cSingle] [] 5).log = [cSingle] := by
  decide

/-! ## C4 — cycles (counterexample part) -/

/-- Claim C4 (counterexample): a manager whose configurations form a
`FROM`-cycle does not necessarily raise `CircularDependencyBuildError`.
When the persistent store already holds each cycle member's current
checksum, `_already_up_to_date` returns `True` before any dependency is
walked, and `build_all()` returns an empty map without raising.  (With the
real `DockerChecksumCalculator` the checksum comparison itself would not
terminate — the calculator recurses through the cyclic parents — which
equally fails to raise `CircularDependencyBuildError`.) -/
theorem C4_cycle_counterexample :
    (build_all calc0 backendId [xCyc, yCyc] [("x:1", "h0"), ("y:1", "h0")] 5).result =
        Except.ok [] ∧
      (build_all calc0 backendId [xCyc, yCyc] [("x:1", "h0"), ("y:1", "h0")] 5).log = [] := by
  decide

/-! ## Builder lemmas for C3 and C4 -/

/-- Membership in a set insertion of configurations. -/
theorem mem_insertBC (x c : BuildConfiguration) (l : List BuildConfiguration) :
    x ∈ insertBC c l ↔ x = c ∨ x ∈ l := by
  rw [insertBC]
  cases hc : l.contains c with
  | true =>
    simp only [if_true]
    constructor
    · exact fun h => Or.inr h
    · rintro (rfl | h)
      · exact List.mem_of_elem_eq_true hc
      · exact h
  | false => simp [List.mem_append, Or.comm]

/-- Insertion preserves membership. -/
theorem mem_insertBC_of_mem (x c : BuildConfiguration) (l : List BuildConfiguration)
    (h : x ∈ l) : x ∈ insertBC c l :=
  (mem_insertBC x c l).mpr (Or.inr h)

/-- Writing nothing to a layered store leaves it unchanged. -/
theorem lcsSetAll_nil (s : LayeredChecksumStorage) : lcsSetAll s [] = s := by
  cases s <;> rfl

/-- A `build` call on a configuration whose stored checksum matches the
calculator's current checksum returns the empty result map without invoking
the backend: the `_already_up_to_date` check at the top of `Builder.build`
short-circuits. -/
theorem build_returns_empty_when_up_to_date
    (calculator backend : BuildConfiguration → String)
    (managed : List BuildConfiguration) (retriever : StrDict) (fuel : Nat)
    (cfg : BuildConfiguration) (allowedArg : Option (List BuildConfiguration))
    (building : List BuildConfiguration) (storageArg : Option LayeredChecksumStorage)
    (log : List BuildConfiguration) (decis : List UpToDateDecision)
    (hmem : cfg ∈ managed)
    (hsuba : ∀ x ∈ insertBC cfg (allowedArg.getD managed), x ∈ managed)
    (hupd : dictGet retriever cfg.identifier = some (calculator cfg)) :
    (build calculator backend managed retriever (fuel + 1) cfg allowedArg building
          storageArg log decis).result = Except.ok [] ∧
      (build calculator backend managed retriever (fuel + 1) cfg allowedArg building
          storageArg log decis).log = log := by
  have hc : managed.contains cfg = true := List.elem_eq_true_of_mem hmem
  have hall : (insertBC cfg (allowedArg.getD managed)).all
      (fun x => managed.contains x) = true :=
    List.all_eq_true.mpr (fun x hx => List.elem_eq_true_of_mem (hsuba x hx))
  have hutd : already_up_to_date calculator retriever cfg = true := by
    rw [already_up_to_date, hupd]
    exact beq_self_eq_true (calculator cfg)
  have hnot : ¬ ∃ x ∈ insertBC cfg (allowedArg.getD managed), x ∉ managed := by
    rintro ⟨x, hx, hxn⟩
    exact hxn (hsuba x hx)
  constructor <;> simp [build, hc, hall, hutd, hmem, hnot]

/-- The `build_all` work loop over configurations that are all up to date in
the persistent store returns the accumulated results unchanged and performs
no backend builds. -/
theorem build_allGo_all_up_to_date (calculator backend : BuildConfiguration → String)
    (managed : List BuildConfiguration) (retriever : StrDict)
    (hcommit : ∀ c ∈ managed, dictGet retriever c.identifier = some (calculator c)) :
    ∀ (left : List BuildConfiguration) (fuel : Nat) (storage : LayeredChecksumStorage)
      (allResults : BuildResults) (log : List BuildConfiguration)
      (decis : List UpToDateDecision),
      (∀ x ∈ left, x ∈ managed) →
      (∀ x ∈ left, allResults.any (fun r => r.1 == x) = false) →
      left.length ≤ fuel →
      (build_allGo calculator backend managed retriever fuel left storage allResults log
            decis).result = Except.ok allResults ∧
        (build_allGo calculator backend managed retriever fuel left storage allResults log
            decis).log = log := by
  intro left
  induction left with
  | nil =>
    intro fuel storage allResults log decis _ _ _
    cases fuel <;> exact ⟨rfl, rfl⟩
  | cons c rest ih =>
    intro fuel storage allResults log decis hsub hno hlen
    cases fuel with
    | zero => simp at hlen
    | succ f =>
      have hcmem : c ∈ managed := hsub c (List.mem_cons_self c rest)
      obtain ⟨hres, hlog⟩ :=
        build_returns_empty_when_up_to_date calculator backend managed retriever f c
          (some rest) [] (some storage) log decis hcmem
          (fun x hx => by
            rcases (mem_insertBC x c ((some rest).getD managed)).mp hx with rfl | hx2
            · exact hcmem
            · exact hsub x (List.mem_cons_of_mem c hx2))
          (hcommit c hcmem)
      rw [build_allGo]
      simp only [hno c (List.mem_cons_self c rest), Bool.false_eq_true, if_false]
      rw [hres, hlog]
      simp only [resultsUpdate, List.foldl_nil, List.map_nil, lcsSetAll_nil,
        List.any_nil, Bool.not_false, List.filter_true]
      exact ih f storage allResults log _
        (fun x hx => hsub x (List.mem_cons_of_mem c hx))
        (fun x hx => hno x (List.mem_cons_of_mem c hx)) (by simpa using Nat.le_of_succ_le_succ hlen)

/-- Claim C3 (amended): `build_all()` performs zero backend builds and
returns the empty map when the persistent store already records every
managed configuration's current checksum — the state the publisher (not
`build_all` itself) establishes after a successful run.  `build_all` never
mutates the persistent store, so without such a commit between the runs an
immediately repeated call performs the same builds again. -/
theorem C3_build_all_after_commit (calculator backend : BuildConfiguration → String)
    (managed : List BuildConfiguration) (retriever : StrDict) (fuel : Nat)
    (hcommit : ∀ c ∈ managed, dictGet retriever c.identifier = some (calculator c))
    (hfuel : managed.length ≤ fuel) :
    (build_all calculator backend managed retriever fuel).result = Except.ok [] ∧
      (build_all calculator backend managed retriever fuel).log = [] := by
  unfold build_all
  exact build_allGo_all_up_to_date calculator backend managed retriever hcommit managed
    fuel _ [] [] [] (fun x hx => hx) (fun x _ => rfl) hfuel

/-- Witness for the amended C3 theorem: with the single configuration's
checksum committed, `build_all` builds nothing. -/
theorem C3_build_all_after_commit_witness :
    (build_all calcH backendId [cSingle] [("c0:1", "hc0:1")] 5).result = Except.ok [] ∧
      (build_all calcH backendId [cSingle] [("c0:1", "hc0:1")] 5).log = [] :=
  C3_build_all_after_commit calcH backendId [cSingle] [("c0:1", "hc0:1")] 5 (by decide)
    (by decide)

/-- Walking the parent chain of a manager whose every configuration has a
managed parent, over a store with no recorded checksums, ends in
`CircularDependencyBuildError` before any backend build: the `building`
stack grows strictly inside the finite manager until a parent is
re-encountered. -/
theorem build_cycle_walk (calculator backend : BuildConfiguration → String)
    (managed : List BuildConfiguration) (retriever : StrDict)
    (hstore : ∀ c ∈ managed, dictGet retriever c.identifier = none)
    (hcycle : ∀ c ∈ managed, ∃ rid d, c.requires = [rid] ∧
        BuildConfigurationContainer.get BuildConfiguration.identifier managed rid =
          some d) :
    ∀ (fuel : Nat) (cfg : BuildConfiguration)
      (building allowedArg : List BuildConfiguration)
      (storageArg : Option LayeredChecksumStorage) (log : List BuildConfiguration)
      (decis : List UpToDateDecision),
      cfg ∈ managed →
      (∀ x ∈ insertBC cfg allowedArg, x ∈ managed) →
      (∀ x ∈ managed, x ∈ insertBC cfg allowedArg) →
      building.Nodup →
      (∀ x ∈ building, x ∈ managed) →
      managed.length + 1 ≤ fuel + building.length →
      (build calculator backend managed retriever fuel cfg (some allowedArg) building
            storageArg log decis).result =
          Except.error BuildError.circularDependencyBuild ∧
        (build calculator backend managed retriever fuel cfg (some allowedArg) building
            storageArg log decis).log = log := by
  intro fuel
  induction fuel with
  | zero =>
    intro cfg building allowedArg storageArg log decis hmem hsub hsup hnd hbsub hfuel
    exfalso
    have hble : building.length ≤ managed.length :=
      List.Subperm.length_le (List.subperm_of_subset hnd (fun x hx => hbsub x hx))
    omega
  | succ fuel ih =>
    intro cfg building allowedArg storageArg log decis hmem hsub hsup hnd hbsub hfuel
    obtain ⟨rid, d, hreq, hget⟩ := hcycle cfg hmem
    have hdmem : d ∈ managed := List.mem_of_find?_eq_some hget
    have hc : managed.contains cfg = true := List.elem_eq_true_of_mem hmem
    have hall : (insertBC cfg allowedArg).all (fun x => managed.contains x) = true :=
      List.all_eq_true.mpr (fun x hx => List.elem_eq_true_of_mem (hsub x hx))
    have hutd_cfg : already_up_to_date calculator retriever cfg = false := by
      rw [already_up_to_date, hstore cfg hmem]
    have hutd_d : already_up_to_date calculator retriever d = false := by
      rw [already_up_to_date, hstore d hdmem]
    have hd_allowed : (insertBC cfg allowedArg).contains d = true :=
      List.elem_eq_true_of_mem (hsup d hdmem)
    rw [build]
    simp only [hc, Bool.not_true, Bool.false_eq_true, if_false, Option.getD_some, hall,
      hutd_cfg, hreq, buildRequiresLoop, hget, hd_allowed, if_true, hutd_d,
      List.any_nil, Bool.not_false, List.filter_true]
    cases hb : building.contains d with
    | true => exact ⟨rfl, rfl⟩
    | false =>
      have hdnot : ¬ d ∈ building := by
        intro hmemb
        have htrue : building.contains d = true := List.elem_eq_true_of_mem hmemb
        rw [htrue] at hb
        exact Bool.noConfusion hb
      obtain ⟨hres, hlog⟩ :=
        ih d (d :: building) (insertBC cfg allowedArg)
          (some (LayeredChecksumStorage.layer []
            (storageArg.getD (LayeredChecksumStorage.base retriever))))
          log
          (decis ++
            [⟨cfg.identifier, dictGet retriever cfg.identifier,
              lcsGet (LayeredChecksumStorage.layer []
                (storageArg.getD (LayeredChecksumStorage.base retriever)))
                cfg.identifier⟩] ++
            [⟨d.identifier, dictGet retriever d.identifier,
              lcsGet (LayeredChecksumStorage.layer []
                (storageArg.getD (LayeredChecksumStorage.base retriever)))
                d.identifier⟩])
          hdmem
          (fun x hx => by
            rcases (mem_insertBC x d (insertBC cfg allowedArg)).mp hx with rfl | hx2
            · exact hdmem
            · exact hsub x hx2)
          (fun x hx => mem_insertBC_of_mem x d (insertBC cfg allowedArg) (hsup x hx))
          (List.nodup_cons.mpr ⟨hdnot, hnd⟩)
          (fun x hx => by
            rcases List.mem_cons.mp hx with rfl | hx2
            · exact hdmem
            · exact hbsub x hx2)
          (by simp only [List.length_cons]; omega)
      rw [hres, hlog]
      exact ⟨rfl, rfl⟩

/-- Claim C4 (amended): for a manager whose every configuration has exactly
one `FROM` parent that is itself managed (the configurations form dependency
cycles) and a persistent store recording no checksum for any managed
configuration (in particular a fresh store), `build_all()` raises
`CircularDependencyBuildError` and the backend `_build` is never invoked for
any configuration. -/
theorem C4_cycle_fresh_store_raises_circular
    (calculator backend : BuildConfiguration → String)
    (managed : List BuildConfiguration) (retriever : StrDict) (fuel : Nat)
    (hne : ¬ managed = [])
    (hstore : ∀ c ∈ managed, dictGet retriever c.identifier = none)
    (hcycle : ∀ c ∈ managed, ∃ rid d, c.requires = [rid] ∧
        BuildConfigurationContainer.get BuildConfiguration.identifier managed rid =
          some d)
    (hfuel : managed.length + 1 ≤ fuel) :
    (build_all calculator backend managed retriever fuel).result =
        Except.error BuildError.circularDependencyBuild ∧
      (build_all calculator backend managed retriever fuel).log = [] := by
  cases managed with
  | nil => exact absurd rfl hne
  | cons m rest =>
    cases fuel with
    | zero => simp at hfuel
    | succ f =>
      have hsub1 : ∀ x ∈ insertBC m rest, x ∈ m :: rest := by
        intro x hx
        rcases (mem_insertBC x m rest).mp hx with h1 | h2
        · rw [h1]
          exact List.mem_cons_self m rest
        · exact List.mem_cons_of_mem m h2
      have hsup1 : ∀ x ∈ m :: rest, x ∈ insertBC m rest := by
        intro x hx
        rcases List.mem_cons.mp hx with h1 | h2
        · rw [h1]
          exact (mem_insertBC m m rest).mpr (Or.inl rfl)
        · exact mem_insertBC_of_mem x m rest h2
      obtain ⟨hres, hlog⟩ :=
        build_cycle_walk calculator backend (m :: rest) retriever hstore hcycle (f + 1) m
          [] rest
          (some (LayeredChecksumStorage.layer []
            (LayeredChecksumStorage.base retriever)))
          [] []
          (List.mem_cons_self m rest) hsub1 hsup1
          List.nodup_nil
          (fun x hx => absurd hx (List.not_mem_nil x))
          (by simpa using hfuel)
      rw [build_all, build_allGo]
      simp only [List.any_nil, Bool.false_eq_true, if_false]
      rw [hres, hlog]
      exact ⟨rfl, rfl⟩

/-- Witness for the amended C4 theorem: the two-element `FROM`-cycle over an
empty store raises `CircularDependencyBuildError` with no backend builds. -/
theorem C4_cycle_fresh_store_raises_circular_witness :
    (build_all calc0 backendId [xCyc, yCyc] [] 5).result =
        Except.error BuildError.circularDependencyBuild ∧
      (build_all calc0 backendId [xCyc, yCyc] [] 5).log = [] :=
  C4_cycle_fresh_store_raises_circular calc0 backendId [xCyc, yCyc] [] 5 (by decide)
    (by decide)
    (fun c hc => by
      rcases List.mem_cons.mp hc with rfl | hc2
      · exact ⟨"y:1", yCyc, rfl, by decide⟩
      · rcases List.mem_cons.mp hc2 with rfl | hc3
        · exact ⟨"x:1", xCyc, rfl, by decide⟩
        · exact absurd hc3 (List.not_mem_nil c))
    (by decide)

/-! ## C6 — construction-time validation -/

/-- Claim C6 (counterexample): `DockerBuildConfiguration.__init__` performs
no `FROM` or identifier validation.  Constructing a configuration with the
malformed identifier `"a:"` and a Dockerfile with no `FROM` instruction
succeeds and yields the stored fields; the missing `FROM` is first detected
when `requires` is accessed, and the trailing colon yields the empty tag
instead of an error. -/
theorem C6_construction_counterexample :
    DockerBuildConfiguration.init "a:" ["df", "Dockerfile"] none [⟨"run", ["x"], "RUN x"⟩] =
        ⟨"a:", ["df", "Dockerfile"], ["df"], [⟨"run", ["x"], "RUN x"⟩]⟩ ∧
      (DockerBuildConfiguration.init "a:" ["df", "Dockerfile"] none
            [⟨"run", ["x"], "RUN x"⟩]).requires =
        Except.error PyError.invalidBuildConfiguration ∧
      (DockerBuildConfiguration.init "a:" ["df", "Dockerfile"] none
            [⟨"run", ["x"], "RUN x"⟩]).tag =
        some "" := by
  decide

/-- Splitting a list with no separator followed by one trailing separator
yields the list and an empty trailing group. -/
theorem splitCharsOn_append_sep (sep : Char) (cs : List Char)
    (h : ¬ sep ∈ cs) : splitCharsOn sep (cs ++ [sep]) = [cs, []] := by
  induction cs with
  | nil => simp [splitCharsOn]
  | cons c rest ih =>
    have hne : ¬ c = sep := by
      intro hcs
      exact h (by simp [hcs])
    have hrest : ¬ sep ∈ rest := by
      intro hmem
      exact h (by simp [hmem])
    simp [splitCharsOn, ih hrest, hne]

/-- A list extended with an element contains it. -/
theorem contains_append_singleton {α : Type} [BEq α] [LawfulBEq α] (l : List α) (a : α) :
    (l ++ [a]).contains a = true :=
  List.elem_eq_true_of_mem (by simp)

/-- Claim C6 (amended): construction always succeeds; a Dockerfile with no
`FROM` instruction yields a configuration whose `requires` raises
`InvalidBuildConfigurationError` when first accessed, and an identifier
ending in a colon is accepted, with `tag` the empty string. -/
theorem C6_validation_is_lazy (name : String) (df : FsPath) (ctx : Option FsPath)
    (cmds : List Command) (hfrom : ∀ c ∈ cmds, ¬ c.cmd = "from")
    (hcolon : ¬ ':' ∈ name.data) :
    (DockerBuildConfiguration.init name df ctx cmds).requires =
        Except.error PyError.invalidBuildConfiguration ∧
      (DockerBuildConfiguration.init (name ++ ":") df ctx cmds).tag = some "" := by
  constructor
  · have hnone : cmds.find? (fun cmd => cmd.cmd == "from") = none := by
      rw [List.find?_eq_none]
      intro c hc
      simp only [beq_iff_eq]
      exact hfrom c hc
    simp [DockerBuildConfiguration.init, DockerBuildConfiguration.requires, hnone]
  · have hdata : (name ++ ":").data = name.data ++ [':'] := by
      rw [String.data_append]
    have hcontains : (name.data ++ [':']).contains ':' = true :=
      contains_append_singleton name.data ':'
    have hsplit : splitCharsOn ':' (name.data ++ [':']) = [name.data, []] :=
      splitCharsOn_append_sep ':' name.data hcolon
    simp only [DockerBuildConfiguration.init, DockerBuildConfiguration.tag,
      splitStrOn, hdata, hcontains, hsplit, if_true, List.map_cons, List.map_nil]
    rfl

/-- Witness for the amended C6 theorem at a concrete input. -/
theorem C6_validation_is_lazy_witness :
    (DockerBuildConfiguration.init "a" ["df", "Dockerfile"] none
          [⟨"run", ["x"], "RUN x"⟩]).requires =
        Except.error PyError.invalidBuildConfiguration ∧
      (DockerBuildConfiguration.init ("a" ++ ":") ["df", "Dockerfile"] none
            [⟨"run", ["x"], "RUN x"⟩]).tag =
        some "" :=
  C6_validation_is_lazy "a" ["df", "Dockerfile"] none [⟨"run", ["x"], "RUN x"⟩]
    (by decide) (by decide)

/-! ## C9 — container add and iteration order -/

/-- Claim C9 (counterexample): re-adding the identifier `a` after `b` leaves
the replaced entry at its original position — iteration yields the `a`
configuration first, not last — because Python `dict` assignment to a
present key keeps the key's insertion position. -/
theorem C9_add_position_counterexample :
    BuildConfigurationContainer.add DockerBuildConfiguration.identifier
        (BuildConfigurationContainer.add DockerBuildConfiguration.identifier
          (BuildConfigurationContainer.add DockerBuildConfiguration.identifier [] da) db)
        da2 =
      [da2, db] ∧ [da2, db] ≠ [db, da2] := by
  decide

/-- Claim C9 (amended): when a configuration with an already-resident
identifier is added, the entry's value is replaced but its position is kept:
the identifier sequence of the iteration is unchanged, lookup of the
identifier returns the newly added configuration, and the container size is
unchanged. -/
theorem C9_add_replaces_in_place {α : Type} (ident : α → String) (l : List α) (c : α)
    (h : l.any (fun d => ident d == ident c) = true) :
    (BuildConfigurationContainer.add ident l c).map ident = l.map ident ∧
      BuildConfigurationContainer.get ident (BuildConfigurationContainer.add ident l c)
          (ident c) =
        some c ∧
      (BuildConfigurationContainer.add ident l c).length = l.length := by
  refine ⟨?_, ?_, ?_⟩
  · rw [BuildConfigurationContainer.add, if_pos h, List.map_map]
    apply List.map_congr_left
    intro d _
    cases hd : ident d == ident c with
    | true =>
      simp only [Function.comp, hd, if_true]
      exact (eq_of_beq hd).symm
    | false => simp only [Function.comp, hd, Bool.false_eq_true, if_false]
  · rw [BuildConfigurationContainer.add, if_pos h, BuildConfigurationContainer.get]
    induction l with
    | nil => simp [List.any] at h
    | cons d rest ih =>
      cases hd : ident d == ident c with
      | true => simp [List.find?, hd]
      | false =>
        have hrest : rest.any (fun d => ident d == ident c) = true := by
          simpa [List.any, hd] using h
        simpa [List.find?, hd] using ih hrest
  · rw [BuildConfigurationContainer.add, if_pos h, List.length_map]

/-! ## C1 — the fingerprint combination -/

/-- Claim C1 (counterexample): at the minimal configuration (one `FROM`
line, empty context, unmanaged parent) `calculate_checksum` does not equal
the hash of the concatenation of the three sub-hashes the claim describes:
it raises `TypeError`, because `calculate_configuration_checksum` feeds the
parsed `Command` object itself — not its original source line — to
`Md5Hasher.update`, which hands it to `hashlib.md5().update`.  The run uses
a concrete digest function (`idHash`); the failure is digest-independent. -/
theorem C1_fingerprint_counterexample :
    DockerChecksumCalculator.calculate_checksum idHash chkNone [] [cfgX] 5 cfgX =
        Except.error PyError.typeError ∧
      DockerChecksumCalculator.calculate_checksum idHash chkNone [] [cfgX] 5 cfgX ≠
        ClaimFingerprint.fingerprint idHash chkNone [] [cfgX] 5 cfgX := by
  decide

/-- The configuration checksum raises `TypeError` whenever the Dockerfile
parses to at least one instruction: the first `hasher.update(command)` call
passes a `Command` object where `str`/`bytes` is required. -/
theorem configuration_checksum_raises (hashFn : String → String)
    (cfg : DockerBuildConfiguration) (h : ¬ cfg.commands = []) :
    DockerChecksumCalculator.calculate_configuration_checksum hashFn cfg =
      Except.error PyError.typeError := by
  cases hc : cfg.commands with
  | nil => exact absurd hc h
  | cons c cs =>
    simp [DockerChecksumCalculator.calculate_configuration_checksum, hc, md5Update,
      bind, Except.bind]

/-- A configuration whose `from_image` succeeds has at least one parsed
command (the `FROM` found by `requires`). -/
theorem commands_ne_nil_of_from_image_ok (cfg : DockerBuildConfiguration) (fi : String)
    (h : cfg.from_image = Except.ok fi) : ¬ cfg.commands = [] := by
  intro hnil
  rw [DockerBuildConfiguration.from_image, DockerBuildConfiguration.requires, hnil] at h
  simp [bind, Except.bind, List.find?] at h

/-- Claim C1 (amended): `DockerChecksumCalculator.calculate_checksum` never
returns a fingerprint.  Every call raises: `TypeError` when the
configuration checksum is reached (the hasher is updated with the parsed
`Command` objects instead of their original source lines),
`InvalidBuildConfigurationError` from `from_image` when the Dockerfile has
no `FROM`, or the corresponding error propagated from the managed parent's
recursive checksum. -/
theorem C1_calculate_checksum_never_returns (hashFn : String → String)
    (checker : List String → String → Bool) (fs : FileSystem)
    (managed : List DockerBuildConfiguration) (fuel : Nat)
    (cfg : DockerBuildConfiguration) :
    (DockerChecksumCalculator.calculate_checksum hashFn checker fs managed fuel
        cfg).isOk =
      false := by
  induction fuel generalizing cfg with
  | zero => rfl
  | succ fuel ih =>
    rw [DockerChecksumCalculator.calculate_checksum]
    cases hu : DockerChecksumCalculator.calculate_used_files_checksum hashFn checker fs cfg with
    | error e => simp [bind, Except.bind, hu, Except.isOk, Except.toBool]
    | ok u =>
      cases hf : cfg.from_image with
      | error e => simp [bind, Except.bind, hu, hf, Except.isOk, Except.toBool]
      | ok fi =>
        cases hg : BuildConfigurationContainer.get DockerBuildConfiguration.identifier
            managed fi with
        | some parent =>
          cases hp : DockerChecksumCalculator.calculate_checksum hashFn checker fs managed
              fuel parent with
          | error e => simp [bind, Except.bind, hu, hf, hg, hp, Except.isOk, Except.toBool]
          | ok pv =>
            have hok := ih parent
            rw [hp] at hok
            simp [Except.isOk, Except.toBool] at hok
        | none =>
          have hcmds : ¬ cfg.commands = [] := commands_ne_nil_of_from_image_ok cfg fi hf
          simp [bind, Except.bind, hu, hf, hg, Except.isOk, Except.toBool,
            configuration_checksum_raises hashFn cfg hcmds]

/-! ## C7 — ignore file location -/

/-- Claim C7 (counterexample): with the context root `/ctx` distinct from
the Dockerfile's directory `/df`, an ignore file present at the context root
(`/ctx/.dockerignore`, pattern `f` matching the context file `/ctx/f`) is
never read: `get_ignored_files` looks for
`os.path.dirname(dockerfile_location)/.dockerignore`, finds nothing and
returns the empty set, while the computation the claim describes (reading
`<context root>/.dockerignore`) yields `/ctx/f`. -/
theorem C7_ignore_location_counterexample :
    cfg7.get_ignored_files exactChk fs7 = [] ∧
      get_ignored_files_claim exactChk fs7 cfg7 = [["ctx", "f"]] ∧
      fs7.existsPath (cfg7.context ++ [".dockerignore"]) = true := by
  decide

/-- Claim C7 (amended): a path is ignored exactly when the ignore file at
the Dockerfile's directory (not the context root) exists, the path is a
regular file below the context root, and the checker matches the path's
context-relative form against the stripped pattern lines. -/
theorem C7_ignored_files_characterisation (checker : List String → String → Bool)
    (fs : FileSystem) (cfg : DockerBuildConfiguration) (p : FsPath) :
    p ∈ cfg.get_ignored_files checker fs ↔
      ∃ contents,
        fs.readFile (cfg.dockerfile_location.dropLast ++ [".dockerignore"]) =
            some contents ∧
          p ∈ walkFiles fs cfg.context ∧
          checker ((splitStrOn '\n' contents).map stripStr) (relpathStr p cfg.context) =
            true := by
  rw [DockerBuildConfiguration.get_ignored_files]
  cases hr : fs.readFile (cfg.dockerfile_location.dropLast ++ [".dockerignore"]) with
  | none => simp
  | some contents => simp [List.mem_filter]

/-- Witness for the C7 characterisation: a file matched through the
Dockerfile-directory ignore file is ignored. -/
theorem C7_ignored_files_characterisation_witness :
    ["ctx", "f"] ∈
      (DockerBuildConfiguration.init "i:1" ["df", "Dockerfile"] (some ["ctx"])
            [⟨"from", ["alpine"], "FROM alpine"⟩]).get_ignored_files
        exactChk
        [⟨["df", ".dockerignore"], FsKind.file "f", 420⟩,
         ⟨["ctx", "f"], FsKind.file "x", 420⟩] :=
  (C7_ignored_files_characterisation exactChk
        [⟨["df", ".dockerignore"], FsKind.file "f", 420⟩,
         ⟨["ctx", "f"], FsKind.file "x", 420⟩]
        (DockerBuildConfiguration.init "i:1" ["df", "Dockerfile"] (some ["ctx"])
          [⟨"from", ["alpine"], "FROM alpine"⟩])
        ["ctx", "f"]).mpr
    ⟨"f", by decide, by decide, by decide⟩

/-! ## C8 — directory expansion and hidden files -/

/-- Claim C8 (counterexample): the source `d` of the `ADD` instruction is a
directory whose regular-file descendants are `.hidden` and `vis`; the
expansion through `glob(f"{d}/**/*", recursive=True)` misses the dot-file,
so `used_files` contains only `vis` even though `.hidden` is a regular-file
descendant and nothing is ignored. -/
theorem C8_hidden_files_counterexample :
    cfg8.used_files chkNone fs8 = Except.ok [["ctx", "d", "vis"]] ∧
      ["ctx", "d", ".hidden"] ∈ regularFileDescendants fs8 ["ctx", "d"] ∧
      cfg8.get_ignored_files chkNone fs8 = [] := by
  decide

/-- Membership in a set insertion. -/
theorem mem_insertPath (p q : FsPath) (l : List FsPath) :
    p ∈ DockerBuildConfiguration.insertPath q l ↔ p = q ∨ p ∈ l := by
  rw [DockerBuildConfiguration.insertPath]
  cases hq : l.contains q with
  | true =>
    simp only [if_true]
    constructor
    · exact fun h => Or.inr h
    · rintro (rfl | h)
      · exact List.mem_of_elem_eq_true hq
      · exact h
  | false => simp [List.mem_append, Or.comm]

/-- Membership after folding conditional set insertions of the candidates
themselves. -/
theorem mem_candidates_fold (cond : FsPath → Bool) (p : FsPath) :
    ∀ (cands : List FsPath) (acc : List FsPath),
      p ∈ cands.foldl
          (fun acc2 cand =>
            if cond cand then DockerBuildConfiguration.insertPath cand acc2 else acc2)
          acc ↔
        p ∈ acc ∨ (p ∈ cands ∧ cond p = true) := by
  intro cands
  induction cands with
  | nil => simp
  | cons c rest ih =>
    intro acc
    rw [List.foldl_cons, ih]
    cases hc : cond c with
    | true =>
      simp only [if_true, mem_insertPath, List.mem_cons]
      constructor
      · rintro ((rfl | h) | h)
        · exact Or.inr ⟨Or.inl rfl, hc⟩
        · exact Or.inl h
        · exact Or.inr ⟨Or.inr h.1, h.2⟩
      · rintro (h | ⟨rfl | h, hcp⟩)
        · exact Or.inl (Or.inr h)
        · exact Or.inl (Or.inl rfl)
        · exact Or.inr ⟨h, hcp⟩
    | false =>
      simp only [Bool.false_eq_true, if_false, List.mem_cons]
      constructor
      · rintro (h | h)
        · exact Or.inl h
        · exact Or.inr ⟨Or.inr h.1, h.2⟩
      · rintro (h | ⟨rfl | h, hcp⟩)
        · exact Or.inl h
        · rw [hcp] at hc
          exact Bool.noConfusion hc
        · exact Or.inr ⟨h, hcp⟩

/-- Membership after folding the per-pattern candidate collection. -/
theorem mem_sources_fold (fs : FileSystem) (context : FsPath) (p : FsPath) :
    ∀ (patterns : List String) (acc : List FsPath),
      p ∈ patterns.foldl
          (fun acc source_path =>
            let full := normJoin context source_path
            let candidates :=
              if fs.isDirB full then globRecursive fs full else [full]
            candidates.foldl
              (fun acc2 cand =>
                if fs.existsPath cand && !fs.isDirB cand then
                  DockerBuildConfiguration.insertPath cand acc2
                else acc2)
              acc)
          acc ↔
        p ∈ acc ∨
          ∃ sp ∈ patterns,
            p ∈ (if fs.isDirB (normJoin context sp) then
                globRecursive fs (normJoin context sp)
              else [normJoin context sp]) ∧
              (fs.existsPath p && !fs.isDirB p) = true := by
  intro patterns
  induction patterns with
  | nil => simp
  | cons sp rest ih =>
    intro acc
    rw [List.foldl_cons]
    simp only [ih, mem_candidates_fold, List.mem_cons]
    constructor
    · rintro ((h | h) | ⟨sp2, hsp2, h⟩)
      · exact Or.inl h
      · exact Or.inr ⟨sp, Or.inl rfl, h.1, h.2⟩
      · exact Or.inr ⟨sp2, Or.inr hsp2, h⟩
    · rintro (h | ⟨sp2, hsp2 | hsp2, h⟩)
      · exact Or.inl (Or.inl h)
      · rw [hsp2] at h
        exact Or.inl (Or.inr h)
      · exact Or.inr ⟨sp2, hsp2, h⟩

/-- Claim C8 (amended): given the collected `ADD`/`COPY` source operands, a
path is in `used_files` exactly when some source, resolved and normalised
against the context root, produces it — a directory source contributing the
`glob` expansion, which yields only descendants reachable through non-hidden
components, a non-directory source contributing itself — and the path
exists, is not a directory, and is not ignored. -/
theorem C8_used_files_characterisation (checker : List String → String → Bool)
    (fs : FileSystem) (cfg : DockerBuildConfiguration) (p : FsPath) (srcs : List String)
    (hsrc : cfg.sourcePatterns = Except.ok srcs) :
    ∃ files,
      cfg.used_files checker fs = Except.ok files ∧
        (p ∈ files ↔
          (∃ sp ∈ srcs,
              p ∈ (if fs.isDirB (normJoin cfg.context sp) then
                  globRecursive fs (normJoin cfg.context sp)
                else [normJoin cfg.context sp]) ∧
                (fs.existsPath p && !fs.isDirB p) = true) ∧
            (cfg.get_ignored_files checker fs).contains p = false) := by
  refine
    ⟨List.filter (fun q => !(cfg.get_ignored_files checker fs).contains q)
        (srcs.foldl
          (fun acc source_path =>
            let full := normJoin cfg.context source_path
            let candidates :=
              if fs.isDirB full then globRecursive fs full else [full]
            candidates.foldl
              (fun acc2 cand =>
                if fs.existsPath cand && !fs.isDirB cand then
                  DockerBuildConfiguration.insertPath cand acc2
                else acc2)
              acc)
          []),
      ?_, ?_⟩
  · rw [DockerBuildConfiguration.used_files, hsrc]
    rfl
  · rw [List.mem_filter, mem_sources_fold fs cfg.context p srcs []]
    simp [Bool.not_eq_true']

/-- Witness for the C8 characterisation: the visible descendant of the
added directory is a used file. -/
theorem C8_used_files_characterisation_witness :
    ∃ files,
      cfg8.used_files chkNone fs8 = Except.ok files ∧
        (["ctx", "d", "vis"] ∈ files ↔
          (∃ sp ∈ ["d"],
              ["ctx", "d", "vis"] ∈ (if fs8.isDirB (normJoin cfg8.context sp) then
                  globRecursive fs8 (normJoin cfg8.context sp)
                else [normJoin cfg8.context sp]) ∧
                (fs8.existsPath ["ctx", "d", "vis"] &&
                    !fs8.isDirB ["ctx", "d", "vis"]) =
                  true) ∧
            (cfg8.get_ignored_files chkNone fs8).contains ["ctx", "d", "vis"] = false) :=
  C8_used_files_characterisation chkNone fs8 cfg8 ["ctx", "d", "vis"] ["d"] (by decide)

/-! ## C5 — publish before commit -/

/-- Processing the push event stream raises on the first event carrying an
`error` field and completes when none does. -/
theorem processPushEvents_spec (cfg : DockerBuildConfiguration)
    (events : List (Option String)) :
    processPushEvents cfg events =
      match firstPushError events with
      | some e => Except.error (classifyPushError cfg e)
      | none => Except.ok () := by
  induction events with
  | nil => rfl
  | cons e rest ih =>
    cases e with
    | none => simpa [processPushEvents, firstPushError, List.findSome?_cons] using ih
    | some err => simp [processPushEvents, firstPushError, List.findSome?_cons]

/-- Claim C5 (counterexample): with the uploader's default registry
`DEFAULT_DOCKER_REGISTRY` — as with every registry `configuration.py` can
construct — `upload()` raises `AttributeError` at the very start of
`_upload` (`uploader.py` line 86 reads `self.docker_registry.namespace`, an
attribute `DockerRegistry` never defines), before any tag, push or event
decoding.  After a clean push stream the fingerprint is therefore not
recorded (refuting the claim's success half), and an error event carrying
`"image does not exist"` surfaces as `AttributeError`, never as
`ImageNotFoundError` or `UploadError` (refuting the classification half);
the store is unchanged in both runs. -/
theorem C5_upload_never_records_counterexample :
    upload (fun _ => "ck") DEFAULT_DOCKER_REGISTRY cfg5 [none, none] [("x", "y")] =
        (Except.error UploadErr.attributeError, [("x", "y")]) ∧
      upload (fun _ => "ck") DEFAULT_DOCKER_REGISTRY cfg5
          [none, some "an image does not exist", none] [("x", "y")] =
        (Except.error UploadErr.attributeError, [("x", "y")]) := by
  decide

/-- Claim C5 (amended): `upload()` never records a fingerprint.  Every call
raises `AttributeError` from the `self.docker_registry.namespace` read at
the start of `_upload`, before tagging, pushing or decoding any push event,
and the checksum store is returned unchanged from its pre-call value. -/
theorem C5_upload_always_raises_attribute_error
    (calculator : DockerBuildConfiguration → String) (registry : DockerRegistry)
    (cfg : DockerBuildConfiguration) (events : List (Option String)) (store : StrDict) :
    upload calculator registry cfg events store =
      (Except.error UploadErr.attributeError, store) := rfl

/-! ## C10 — `get_all_checksums` returns a copy -/

/-- Replacing a cell keeps the heap size. -/
theorem setListAt_length {α : Type} (l : List α) (n : Nat) (v : α) :
    (setListAt l n v).length = l.length := by
  induction l generalizing n with
  | nil => rfl
  | cons x xs ih =>
    cases n with
    | zero => rfl
    | succ m => simp [setListAt, ih]

/-- Reading a different index than the one written is unaffected. -/
theorem getD_setListAt_ne {α : Type} (l : List α) (a b : Nat) (v d : α)
    (hne : ¬ a = b) : (setListAt l a v).getD b d = l.getD b d := by
  induction l generalizing a b with
  | nil => rfl
  | cons x xs ih =>
    cases a with
    | zero =>
      cases b with
      | zero => exact absurd rfl hne
      | succ k => simp [setListAt]
    | succ m =>
      cases b with
      | zero => simp [setListAt]
      | succ k =>
        simp only [setListAt, List.getD_cons_succ]
        exact ih m k (fun hh => hne (by rw [hh]))

/-- Reading the address just allocated returns the allocated contents. -/
theorem readCell_alloc (h : DictHeap) (v : StrDict) :
    (h.alloc v).1.readCell (h.alloc v).2 = v := by
  show (h.cells ++ [v]).getD h.cells.length [] = v
  induction h.cells with
  | nil => rfl
  | cons x xs ih => simp only [List.cons_append, List.length_cons, List.getD_cons_succ, ih]

/-- A sequence of `set_checksum` operations keeps the heap size. -/
theorem applySets_cells_length (h : DictHeap) (st : MemoryChecksumStorage)
    (ops : List (String × String)) :
    (MemoryChecksumStorage.applySets h st ops).cells.length = h.cells.length := by
  induction ops generalizing h with
  | nil => rfl
  | cons op rest ih =>
    rw [MemoryChecksumStorage.applySets, ih]
    simp [MemoryChecksumStorage.set_checksum, DictHeap.writeCell, setListAt_length]

/-- Claim C10: for a `MemoryChecksumStorage` created by `__init__` and any
sequence of prior `set_checksum` operations, `get_all_checksums` returns a
copy: arbitrarily mutating the returned `dict` changes neither a subsequent
`get_checksum`, nor the store's own `_data`, nor the contents returned by a
subsequent `get_all_checksums`. -/
theorem C10_get_all_checksums_is_copy
    (h0 h1 h2 h3 : DictHeap) (st : MemoryChecksumStorage) (copyAddr : Nat)
    (ops : List (String × String)) (v : StrDict) (id1 : String)
    (hinit : MemoryChecksumStorage.init h0 = (h1, st))
    (hsets : MemoryChecksumStorage.applySets h1 st ops = h2)
    (hget : MemoryChecksumStorage.get_all_checksums h2 st = (h3, copyAddr)) :
    MemoryChecksumStorage.get_checksum (h3.writeCell copyAddr v) st id1 =
        MemoryChecksumStorage.get_checksum h3 st id1 ∧
      (h3.writeCell copyAddr v).readCell st.dataAddr = h3.readCell st.dataAddr ∧
      (MemoryChecksumStorage.get_all_checksums (h3.writeCell copyAddr v) st).1.readCell
          (MemoryChecksumStorage.get_all_checksums (h3.writeCell copyAddr v) st).2 =
        (MemoryChecksumStorage.get_all_checksums h3 st).1.readCell
          (MemoryChecksumStorage.get_all_checksums h3 st).2 := by
  have hstAddr : st.dataAddr = h0.cells.length := by
    have hsnd := congrArg Prod.snd hinit
    simp only [MemoryChecksumStorage.init, DictHeap.alloc] at hsnd
    rw [← hsnd]
  have h1len : h1.cells.length = h0.cells.length + 1 := by
    have hfst := congrArg Prod.fst hinit
    simp only [MemoryChecksumStorage.init, DictHeap.alloc] at hfst
    rw [← hfst]
    simp
  have h2len : h2.cells.length = h0.cells.length + 1 := by
    rw [← hsets, applySets_cells_length, h1len]
  have haddr : copyAddr = h2.cells.length := by
    have hsnd := congrArg Prod.snd hget
    simp only [MemoryChecksumStorage.get_all_checksums, DictHeap.alloc] at hsnd
    rw [← hsnd]
  have hne : ¬ copyAddr = st.dataAddr := by
    rw [haddr, h2len, hstAddr]
    omega
  have key : (h3.writeCell copyAddr v).readCell st.dataAddr = h3.readCell st.dataAddr := by
    show ((setListAt h3.cells copyAddr v).getD st.dataAddr []) = h3.cells.getD st.dataAddr []
    exact getD_setListAt_ne h3.cells copyAddr st.dataAddr v [] hne
  refine ⟨?_, key, ?_⟩
  · simp [MemoryChecksumStorage.get_checksum, key]
  · rw [MemoryChecksumStorage.get_all_checksums, MemoryChecksumStorage.get_all_checksums,
      readCell_alloc, readCell_alloc, key]

/-- Witness for the C10 theorem at a concrete run. -/
theorem C10_get_all_checksums_is_copy_witness :
    MemoryChecksumStorage.get_checksum
        ((⟨[[("a", "1")], [("a", "1")]]⟩ : DictHeap).writeCell 1 [("a", "zzz")]) ⟨0⟩ "a" =
        MemoryChecksumStorage.get_checksum (⟨[[("a", "1")], [("a", "1")]]⟩ : DictHeap) ⟨0⟩
          "a" ∧
      ((⟨[[("a", "1")], [("a", "1")]]⟩ : DictHeap).writeCell 1
            [("a", "zzz")]).readCell (0 : Nat) =
        (⟨[[("a", "1")], [("a", "1")]]⟩ : DictHeap).readCell (0 : Nat) ∧
      (MemoryChecksumStorage.get_all_checksums
            ((⟨[[("a", "1")], [("a", "1")]]⟩ : DictHeap).writeCell 1 [("a", "zzz")])
            ⟨0⟩).1.readCell
          (MemoryChecksumStorage.get_all_checksums
              ((⟨[[("a", "1")], [("a", "1")]]⟩ : DictHeap).writeCell 1 [("a", "zzz")])
              ⟨0⟩).2 =
        (MemoryChecksumStorage.get_all_checksums (⟨[[("a", "1")], [("a", "1")]]⟩ : DictHeap)
              ⟨0⟩).1.readCell
          (MemoryChecksumStorage.get_all_checksums (⟨[[("a", "1")], [("a", "1")]]⟩ : DictHeap)
              ⟨0⟩).2 :=
  C10_get_all_checksums_is_copy ⟨[]⟩ ⟨[[]]⟩ ⟨[[("a", "1")]]⟩ ⟨[[("a", "1")], [("a", "1")]]⟩
    ⟨0⟩ 1 [("a", "1")] [("a", "zzz")] "a" (by decide) (by decide) (by decide)

/-- Witness for the amended C9 theorem at a concrete input. -/
theorem C9_add_replaces_in_place_witness :
    (BuildConfigurationContainer.add DockerBuildConfiguration.identifier [da, db] da2).map
          DockerBuildConfiguration.identifier =
        [da, db].map DockerBuildConfiguration.identifier ∧
      BuildConfigurationContainer.get DockerBuildConfiguration.identifier
          (BuildConfigurationContainer.add DockerBuildConfiguration.identifier [da, db] da2)
          (DockerBuildConfiguration.identifier da2) =
        some da2 ∧
      (BuildConfigurationContainer.add DockerBuildConfiguration.identifier [da, db]
            da2).length =
        [da, db].length :=
  C9_add_replaces_in_place DockerBuildConfiguration.identifier [da, db] da2 (by decide)

end ThriftyBuilder
